import Mathlib

/-!
Verification of the configuration layer of django-tomselect.

The development shallowly embeds `src/django_tomselect/app_settings.py`
(the `TomSelectConfig` dataclass, its `validate`, `update` and the
`merge_configs` function) and `src/mizdb_tomselect/widgets.py`
(the `MIZSelect` widget's `optgroups`, `get_add_url`,
`get_changelist_url` and `build_attrs` methods).

Python values are modelled as follows: `str` becomes `String`, `bool`
becomes `Bool`, `int` becomes `Int`, `X | None` (optional fields)
becomes `Option`, tuples of field names become `List String`, and
`dict` becomes an association list, or its lookup
function where only get/set/update are used.  Raising `ValidationError` (the spec's ConfigurationError)
is modelled with `Except String`.
-/

namespace DjangoTomselect

/-- The `preload` field of `TomSelectConfig` is typed
`Literal["focus"] | bool` in the source. -/
inductive Preload where
  | focus : Preload
  | flag : Bool → Preload
deriving DecidableEq, Repr

/-- Embeds `PluginCheckboxOptions` from app_settings.py: no fields. -/
structure PluginCheckboxOptions where
deriving DecidableEq, Repr

/-- Embeds `PluginDropdownInput` from app_settings.py: no fields. -/
structure PluginDropdownInput where
deriving DecidableEq, Repr

/-- Embeds `PluginClearButton` from app_settings.py. -/
structure PluginClearButton where
  title : String := "Clear Selections"
  class_name : String := "clear-button"
deriving DecidableEq, Repr

/-- Embeds `PluginDropdownHeader` from app_settings.py.  `extra_columns` is a
`dict[str, str]`, modelled as an association list. -/
structure PluginDropdownHeader where
  title : String := "Autocomplete"
  header_class : String := "container-fluid bg-primary text-bg-primary pt-1 pb-1 mb-2 dropdown-header"
  title_row_class : String := "row"
  label_class : String := "form-label"
  value_field_label : String := "Value"
  label_field_label : String := "Label"
  label_col_class : String := "col-6"
  show_value_field : Bool := false
  extra_columns : List (String × String) := []
deriving DecidableEq, Repr

/-- Embeds `PluginDropdownFooter` from app_settings.py. -/
structure PluginDropdownFooter where
  title : String := "Autocomplete Footer"
  footer_class : String := "container-fluid mt-1 px-2 border-top dropdown-footer"
  list_view_label : String := "List View"
  list_view_class : String := "btn btn-primary btn-sm m-2 p-1 float-end float-right"
  create_view_label : String := "Create New"
  create_view_class : String := "btn btn-primary btn-sm m-2 p-1 float-end float-right"
deriving DecidableEq, Repr

/-- Embeds `PluginRemoveButton` from app_settings.py. -/
structure PluginRemoveButton where
  title : String := "Remove this item"
  label : String := "&times;"
  class_name : String := "remove"
deriving DecidableEq, Repr

/-- Embeds `TomSelectConfig` from app_settings.py, with the declared field
defaults.  `css_framework` defaults to `DEFAULT_CSS_FRAMEWORK`, whose
fallback value is `"default"`; `use_minified` defaults to
`DEFAULT_USE_MINIFIED`, a project-settings boolean (its concrete value
does not affect any property proved below). -/
structure TomSelectConfig where
  url : String := "autocomplete"
  show_list : Bool := false
  show_create : Bool := false
  show_detail : Bool := false
  show_update : Bool := false
  show_delete : Bool := false
  value_field : String := "id"
  label_field : String := "name"
  create_field : String := ""
  filter_by : List String := []
  exclude_by : List String := []
  use_htmx : Bool := false
  attrs : List (String × String) := []
  close_after_select : Option Bool := none
  hide_placeholder : Option Bool := none
  highlight : Bool := true
  load_throttle : Int := 300
  loading_class : String := "loading"
  max_items : Option Int := none
  max_options : Option Int := none
  open_on_focus : Bool := true
  placeholder : Option String := some "Select a value"
  preload : Preload := .focus
  create : Bool := false
  create_filter : Option String := none
  create_with_htmx : Bool := false
  minimum_query_length : Int := 2
  css_framework : String := "default"
  use_minified : Bool := false
  plugin_checkbox_options : Option PluginCheckboxOptions := none
  plugin_clear_button : Option PluginClearButton := none
  plugin_dropdown_header : Option PluginDropdownHeader := none
  plugin_dropdown_footer : Option PluginDropdownFooter := none
  plugin_dropdown_input : Option PluginDropdownInput := none
  plugin_remove_button : Option PluginRemoveButton := none
deriving DecidableEq, Repr

/-- Embeds `self.max_items is not None and self.max_items < 1` (and the same
check for `max_options`) from `TomSelectConfig.validate`. -/
def belowOne : Option Int → Bool
  | some v => v < 1
  | none => false

/-- Embeds `TomSelectConfig.validate` from app_settings.py: each `raise
ValidationError(msg)` becomes `.error msg`, in source order. -/
def TomSelectConfig.validate (c : TomSelectConfig) : Except String Unit :=
  if c.filter_by.length > 0 ∧ c.filter_by.length ≠ 2 then
    .error "filter_by must be either empty or a 2-tuple"
  else if c.exclude_by.length > 0 ∧ c.exclude_by.length ≠ 2 then
    .error "exclude_by must be either empty or a 2-tuple"
  else if (c.filter_by.length > 0 ∨ c.exclude_by.length > 0) ∧ c.filter_by = c.exclude_by then
    .error "filter_by and exclude_by cannot refer to the same field"
  else if c.load_throttle < 0 then
    .error "load_throttle must be positive"
  else if belowOne c.max_items then
    .error "max_items must be greater than 0"
  else if belowOne c.max_options then
    .error "max_options must be greater than 0"
  else if c.minimum_query_length < 0 then
    .error "minimum_query_length must be positive"
  else
    .ok ()

/-- Dataclass construction of a `TomSelectConfig`: `__post_init__`
(inherited from `BaseConfig`) calls `validate`, so building an instance
either returns it or raises `ValidationError`. -/
def mkTomSelectConfig (c : TomSelectConfig) : Except String TomSelectConfig :=
  match c.validate with
  | .ok _ => .ok c
  | .error e => .error e

/-- One step of the loop in `merge_configs`: `val = getattr(override,
field_name); if val is not None: combined[field_name] = val`.  For an
optional field the override value wins exactly when it is not `None`. -/
def mergeOpt {α : Type} (b : Option α) (o : Option α) : Option α :=
  match o with
  | some v => some v
  | none => b

/-- The `combined` dict built inside `merge_configs`: a copy of
`base.__dict__` in which every field of `override` whose value is not
`None` has been written.  Fields not typed `X | None` can never hold
`None`, so the override's value always wins for them. -/
def combine (base override : TomSelectConfig) : TomSelectConfig :=
  { url := override.url
    show_list := override.show_list
    show_create := override.show_create
    show_detail := override.show_detail
    show_update := override.show_update
    show_delete := override.show_delete
    value_field := override.value_field
    label_field := override.label_field
    create_field := override.create_field
    filter_by := override.filter_by
    exclude_by := override.exclude_by
    use_htmx := override.use_htmx
    attrs := override.attrs
    close_after_select := mergeOpt base.close_after_select override.close_after_select
    hide_placeholder := mergeOpt base.hide_placeholder override.hide_placeholder
    highlight := override.highlight
    load_throttle := override.load_throttle
    loading_class := override.loading_class
    max_items := mergeOpt base.max_items override.max_items
    max_options := mergeOpt base.max_options override.max_options
    open_on_focus := override.open_on_focus
    placeholder := mergeOpt base.placeholder override.placeholder
    preload := override.preload
    create := override.create
    create_filter := mergeOpt base.create_filter override.create_filter
    create_with_htmx := override.create_with_htmx
    minimum_query_length := override.minimum_query_length
    css_framework := override.css_framework
    use_minified := override.use_minified
    plugin_checkbox_options := mergeOpt base.plugin_checkbox_options override.plugin_checkbox_options
    plugin_clear_button := mergeOpt base.plugin_clear_button override.plugin_clear_button
    plugin_dropdown_header := mergeOpt base.plugin_dropdown_header override.plugin_dropdown_header
    plugin_dropdown_footer := mergeOpt base.plugin_dropdown_footer override.plugin_dropdown_footer
    plugin_dropdown_input := mergeOpt base.plugin_dropdown_input override.plugin_dropdown_input
    plugin_remove_button := mergeOpt base.plugin_remove_button override.plugin_remove_button }

/-- Embeds `merge_configs(base, override)` from app_settings.py.  `if not
override: return base` — a dataclass instance is always truthy, so only
`None` takes that branch.  Otherwise the combined dict is passed to the
`TomSelectConfig` constructor, which re-validates. -/
def merge_configs (base : TomSelectConfig) (override : Option TomSelectConfig) :
    Except String TomSelectConfig :=
  match override with
  | none => .ok base
  | some ov => mkTomSelectConfig (combine base ov)

/-- Embeds `object.__setattr__` on a `TomSelectConfig` instance.  The class is
declared `@dataclass(frozen=True)` (app_settings.py line 200), and a
frozen dataclass raises `FrozenInstanceError` on every attribute
assignment. -/
def TomSelectConfig.setattr (_c : TomSelectConfig) (key : String) (_value : String) :
    Except String TomSelectConfig :=
  .error ("FrozenInstanceError: cannot assign to field " ++ key)

/-- Embeds `TomSelectConfig.update(**kwargs)` from app_settings.py: iterates
the keyword arguments and does `setattr(self, key, value)` for each.
The values' types are irrelevant to the outcome, so kwargs are modelled
as string pairs. -/
def TomSelectConfig.update (c : TomSelectConfig) (kwargs : List (String × String)) :
    Except String TomSelectConfig :=
  match kwargs with
  | [] => .ok c
  | (k, v) :: rest =>
    match c.setattr k v with
    | .ok c2 => c2.update rest
    | .error e => .error e

/-! Widget layer: `src/mizdb_tomselect/widgets.py`. -/

/-- An HTML attribute value: `build_attrs` writes both strings and
booleans (`"is-tomselect": True`). -/
inductive AttrValue where
  | str : String → AttrValue
  | flag : Bool → AttrValue
deriving DecidableEq, Repr

/-- A Python `dict` of HTML attributes, modelled by its lookup
function: a key maps to `some` value exactly when it is present.  The
widget code only reads, writes and bulk-updates attribute dicts, so the
lookup function captures their behaviour completely. -/
def Attrs : Type := String → Option AttrValue

/-- Python `dict` assignment `d[k] = v`. -/
def dictSet (d : Attrs) (k : String) (v : AttrValue) : Attrs :=
  fun q => if q = k then some v else d q

/-- Python `d.update(entries)`: write each entry into the dict, in
order (later entries win). -/
def dictUpdate (d : Attrs) (entries : List (String × AttrValue)) : Attrs :=
  entries.foldl (fun acc p => dictSet acc p.1 p.2) d

/-- Python `{**d, **e}` (Django's `Widget.build_attrs` merges
`base_attrs` with `extra_attrs` this way): a key present in `e` wins,
otherwise `d` is consulted. -/
def dictMerge (d e : Attrs) : Attrs :=
  fun q => match e q with
  | some v => some v
  | none => d q

/-- Embeds `json.dumps` of a list of strings, as used for `data-filter-by`
(string escaping is not modelled; no claim depends on the encoding). -/
def jsonListOfStrings (xs : List String) : String :=
  "[" ++ String.intercalate ", " (xs.map (fun s => "\x22" ++ s ++ "\x22")) ++ "]"

/-- The state of a `MIZSelect` widget after `__init__` from
widgets.py.  `model` carries the `(app_label, model_name)` pair read
from `model._meta`; everything else mirrors the constructor arguments
and defaults. -/
structure MIZSelect where
  app_label : String
  model_name : String
  url : String := "autocomplete"
  search_lookup : String := "name__icontains"
  value_field : String := "id"
  label_field : String := "name"
  create_field : String := ""
  multiple : Bool := false
  changelist_url : String := ""
  add_url : String := ""
  filter_by : List String := []
deriving DecidableEq, Repr

/-- Shape of one entry of a Django `optgroups` result
(group name, options, index); `MIZSelect.optgroups` never builds one. -/
structure OptGroup where
  group : Option String
  options : List (String × AttrValue)
  index : Nat
deriving DecidableEq, Repr

/-- Embeds `MIZSelect.optgroups` from widgets.py: `return []` — never provide
any options; the view serves them. -/
def MIZSelect.optgroups (_w : MIZSelect) (_name : String) (_value : List String)
    (_attrs : Attrs) : List OptGroup :=
  []

/-- Embeds `MIZSelect.get_url`: `reverse(self.url)`.  Django's `reverse` URL
resolver is an external collaborator, passed in as a function. -/
def MIZSelect.get_url (w : MIZSelect) (reverse : String → String) : String :=
  reverse w.url

/-- Embeds `MIZSelect.get_add_url`: `if self.add_url: return reverse(self.add_url)`
— a falsy (empty) `add_url` falls through and returns `None`. -/
def MIZSelect.get_add_url (w : MIZSelect) (reverse : String → String) : Option String :=
  if w.add_url ≠ "" then some (reverse w.add_url) else none

/-- Embeds `MIZSelect.get_changelist_url`: same shape as `get_add_url`. -/
def MIZSelect.get_changelist_url (w : MIZSelect) (reverse : String → String) : Option String :=
  if w.changelist_url ≠ "" then some (reverse w.changelist_url) else none

/-- Embeds `x or ""` on an optional string: `None` and `""` both yield `""`. -/
def orEmpty : Option String → String
  | some s => s
  | none => ""

/-- Embeds `MIZSelect.build_attrs` from widgets.py.  `super().build_attrs`
(Django's `Widget.build_attrs`) merges `base_attrs` with `extra_attrs`;
then the widget writes its own data attributes over the result. -/
def MIZSelect.build_attrs (w : MIZSelect) (reverse : String → String)
    (base_attrs extra_attrs : Attrs) : Attrs :=
  let attrs := dictMerge base_attrs extra_attrs
  dictUpdate attrs
    [ ("is-tomselect", .flag true)
    , ("is-multiple", .flag w.multiple)
    , ("data-autocomplete-url", .str (w.get_url reverse))
    , ("data-model", .str (w.app_label ++ "." ++ w.model_name))
    , ("data-search-lookup", .str w.search_lookup)
    , ("data-value-field", .str w.value_field)
    , ("data-label-field", .str w.label_field)
    , ("data-create-field", .str w.create_field)
    , ("data-changelist-url", .str (orEmpty (w.get_changelist_url reverse)))
    , ("data-add-url", .str (orEmpty (w.get_add_url reverse)))
    , ("data-filter-by", .str (jsonListOfStrings w.filter_by)) ]

/-! Helper lemmas shared by several results. -/

theorem mergeOpt_eq_if {α : Type} (b o : Option α) :
    mergeOpt b o = if o.isSome then o else b := by
  cases o <;> rfl

theorem mergeOpt_idem {α : Type} (b o : Option α) :
    mergeOpt (mergeOpt b o) o = mergeOpt b o := by
  cases o <;> rfl

theorem mkTomSelectConfig_ok_iff (c m : TomSelectConfig) :
    mkTomSelectConfig c = .ok m ↔ c.validate = .ok () ∧ m = c := by
  unfold mkTomSelectConfig
  cases hv : c.validate with
  | ok u =>
    cases u
    simp [eq_comm]
  | error e =>
    simp

/-- Example base configuration for witnesses: a nonzero throttle and a
set `max_items`. -/
def exampleBase : TomSelectConfig := { load_throttle := 250, max_items := some 4 }

/-- Example override: an explicit `load_throttle=0`, everything else
left at the declared defaults. -/
def exampleOverride : TomSelectConfig := { load_throttle := 0 }

/-- The configuration `merge_configs exampleBase exampleOverride`
produces: zero throttle from the override, `max_items` kept from the
base (the override's is `None`). -/
def exampleMerged : TomSelectConfig := { load_throttle := 0, max_items := some 4 }

/-- C4: `merge_configs(base, None)` returns `base` unchanged, for every
base configuration. -/
theorem merge_identity (base : TomSelectConfig) :
    merge_configs base none = .ok base := rfl

/-- C1: whenever `merge_configs(base, override)` succeeds, every
declared field of the result takes the override's value when that value
is not the `None` sentinel — in particular an explicit `false`, `0` or
empty-string override value wins, since those are not `None` — and the
base's value otherwise.  Fields not typed `X | None` can never be the
sentinel, so the override's value always wins for them. -/
theorem merge_override_wins (base ov m : TomSelectConfig)
    (h : merge_configs base (some ov) = .ok m) :
    m.url = ov.url ∧ m.show_list = ov.show_list ∧ m.show_create = ov.show_create ∧
    m.show_detail = ov.show_detail ∧ m.show_update = ov.show_update ∧
    m.show_delete = ov.show_delete ∧ m.value_field = ov.value_field ∧
    m.label_field = ov.label_field ∧ m.create_field = ov.create_field ∧
    m.filter_by = ov.filter_by ∧ m.exclude_by = ov.exclude_by ∧
    m.use_htmx = ov.use_htmx ∧ m.attrs = ov.attrs ∧
    m.close_after_select =
      (if ov.close_after_select.isSome then ov.close_after_select else base.close_after_select) ∧
    m.hide_placeholder =
      (if ov.hide_placeholder.isSome then ov.hide_placeholder else base.hide_placeholder) ∧
    m.highlight = ov.highlight ∧ m.load_throttle = ov.load_throttle ∧
    m.loading_class = ov.loading_class ∧
    m.max_items = (if ov.max_items.isSome then ov.max_items else base.max_items) ∧
    m.max_options = (if ov.max_options.isSome then ov.max_options else base.max_options) ∧
    m.open_on_focus = ov.open_on_focus ∧
    m.placeholder = (if ov.placeholder.isSome then ov.placeholder else base.placeholder) ∧
    m.preload = ov.preload ∧ m.create = ov.create ∧
    m.create_filter =
      (if ov.create_filter.isSome then ov.create_filter else base.create_filter) ∧
    m.create_with_htmx = ov.create_with_htmx ∧
    m.minimum_query_length = ov.minimum_query_length ∧
    m.css_framework = ov.css_framework ∧ m.use_minified = ov.use_minified ∧
    m.plugin_checkbox_options =
      (if ov.plugin_checkbox_options.isSome then ov.plugin_checkbox_options
       else base.plugin_checkbox_options) ∧
    m.plugin_clear_button =
      (if ov.plugin_clear_button.isSome then ov.plugin_clear_button
       else base.plugin_clear_button) ∧
    m.plugin_dropdown_header =
      (if ov.plugin_dropdown_header.isSome then ov.plugin_dropdown_header
       else base.plugin_dropdown_header) ∧
    m.plugin_dropdown_footer =
      (if ov.plugin_dropdown_footer.isSome then ov.plugin_dropdown_footer
       else base.plugin_dropdown_footer) ∧
    m.plugin_dropdown_input =
      (if ov.plugin_dropdown_input.isSome then ov.plugin_dropdown_input
       else base.plugin_dropdown_input) ∧
    m.plugin_remove_button =
      (if ov.plugin_remove_button.isSome then ov.plugin_remove_button
       else base.plugin_remove_button) := by
  rw [show merge_configs base (some ov) = mkTomSelectConfig (combine base ov) from rfl,
      mkTomSelectConfig_ok_iff] at h
  obtain ⟨-, hm⟩ := h
  subst hm
  simp [combine, mergeOpt_eq_if]

/-- Witness for C1: with `exampleBase.load_throttle = 250` and an
override that sets `load_throttle := 0`, the merged configuration has
`load_throttle = 0` (explicit-zero-wins at a concrete input). -/
theorem merge_override_wins_witness :
    merge_configs exampleBase (some exampleOverride) = .ok exampleMerged ∧
    exampleMerged.load_throttle = 0 := by
  have h := merge_override_wins exampleBase exampleOverride exampleMerged (by rfl)
  refine ⟨by rfl, ?_⟩
  obtain ⟨-, -, -, -, -, -, -, -, -, -, -, -, -, -, -, -, h17, -⟩ := h
  exact h17

/-- C5: merging is idempotent in the override: if
`merge_configs(base, override)` succeeds with result `m`, then
`merge_configs(m, override)` succeeds and returns `m` again. -/
theorem merge_idempotent (base ov m : TomSelectConfig)
    (h : merge_configs base (some ov) = .ok m) :
    merge_configs m (some ov) = .ok m := by
  rw [show merge_configs base (some ov) = mkTomSelectConfig (combine base ov) from rfl,
      mkTomSelectConfig_ok_iff] at h
  obtain ⟨hval, hm⟩ := h
  have hcomb : combine m ov = m := by
    subst hm
    simp [combine, mergeOpt_idem]
  show mkTomSelectConfig (combine m ov) = .ok m
  rw [hcomb, mkTomSelectConfig_ok_iff, hm]
  exact ⟨hval, rfl⟩

/-- Witness for C5: re-merging `exampleOverride` over the already
merged `exampleMerged` leaves it unchanged. -/
theorem merge_idempotent_witness :
    merge_configs exampleMerged (some exampleOverride) = .ok exampleMerged :=
  merge_idempotent exampleBase exampleOverride exampleMerged (by rfl)

/-- C6: constructing a `TomSelectConfig` with a negative
`load_throttle`, a negative `minimum_query_length`, `max_items == 0` or
`max_options == 0` fails with a ConfigurationError. -/
theorem invalid_numbers_rejected (c : TomSelectConfig)
    (h : c.load_throttle < 0 ∨ c.minimum_query_length < 0 ∨
         c.max_items = some 0 ∨ c.max_options = some 0) :
    ∃ e, mkTomSelectConfig c = .error e := by
  unfold mkTomSelectConfig
  cases hv : c.validate with
  | error e => exact ⟨e, rfl⟩
  | ok u =>
    exfalso
    unfold TomSelectConfig.validate at hv
    split_ifs at hv with h1 h2 h3 h4 h5 h6 h7
    rcases h with h | h | h | h
    · exact h4 h
    · exact h7 h
    · exact h5 (by rw [h]; rfl)
    · exact h6 (by rw [h]; rfl)

/-- Witness for C6: `load_throttle := -1` is rejected. -/
theorem invalid_numbers_rejected_witness :
    ∃ e, mkTomSelectConfig { load_throttle := -1 } = .error e :=
  invalid_numbers_rejected { load_throttle := -1 } (Or.inl (by decide))

/-- C7: construction fails with a ConfigurationError when `filter_by`
and `exclude_by` are equal and non-empty, and when either of them is
neither empty nor of length exactly 2. -/
theorem filter_exclude_rejected (c : TomSelectConfig)
    (h : (c.filter_by = c.exclude_by ∧ c.filter_by ≠ []) ∨
         (c.filter_by ≠ [] ∧ c.filter_by.length ≠ 2) ∨
         (c.exclude_by ≠ [] ∧ c.exclude_by.length ≠ 2)) :
    ∃ e, mkTomSelectConfig c = .error e := by
  unfold mkTomSelectConfig
  cases hv : c.validate with
  | error e => exact ⟨e, rfl⟩
  | ok u =>
    exfalso
    unfold TomSelectConfig.validate at hv
    split_ifs at hv with h1 h2 h3 h4 h5 h6 h7
    rcases h with ⟨heq, hne⟩ | ⟨hne, hlen⟩ | ⟨hne, hlen⟩
    · exact h3 ⟨Or.inl (List.length_pos.mpr hne), heq⟩
    · exact h1 ⟨List.length_pos.mpr hne, hlen⟩
    · exact h2 ⟨List.length_pos.mpr hne, hlen⟩

/-- Witness for C7: identical non-empty `filter_by` and `exclude_by`
are rejected. -/
theorem filter_exclude_rejected_witness :
    ∃ e, mkTomSelectConfig { filter_by := ["a", "b"], exclude_by := ["a", "b"] } = .error e :=
  filter_exclude_rejected { filter_by := ["a", "b"], exclude_by := ["a", "b"] }
    (Or.inl ⟨rfl, by decide⟩)

/-- Base of the spec's end-to-end merge scenario:
`filter_by=("a","b")`, `exclude_by=()`. -/
def conflictBase : TomSelectConfig := { filter_by := ["a", "b"] }

/-- Override of the scenario: `exclude_by=("a","b")`, everything else
left at the declared defaults. -/
def conflictOverride : TomSelectConfig := { exclude_by := ["a", "b"] }

/-- What the merge actually produces for that scenario: the override's
default empty `filter_by`, not being `None`, replaces the base's
`("a","b")`. -/
def conflictMerged : TomSelectConfig := { exclude_by := ["a", "b"] }

/-- C2 counterexample: merging `conflictBase` with `conflictOverride`
does not fail — it succeeds with `filter_by` emptied, so no "identical
filter/exclude" ConfigurationError is raised. -/
theorem merge_conflict_scenario_succeeds :
    merge_configs conflictBase (some conflictOverride) = .ok conflictMerged := by
  rfl

/-- C2 amended: merging a base with `filter_by=("a","b")` and an
override with `exclude_by=("a","b")` succeeds, because the override's
default empty `filter_by` (not `None`) replaces the base's value; the
merged result carries `filter_by=()`, `exclude_by=("a","b")` and passes
the same validation a fresh construction runs. -/
theorem merge_conflict_scenario_amended :
    merge_configs conflictBase (some conflictOverride) = .ok conflictMerged ∧
    conflictMerged.filter_by = [] ∧ conflictMerged.exclude_by = ["a", "b"] ∧
    mkTomSelectConfig conflictMerged = .ok conflictMerged :=
  ⟨rfl, rfl, rfl, rfl⟩

/-- C3: `TomSelectConfig.update` never mutates anything — the class is
a frozen dataclass, so the very first `setattr` raises
`FrozenInstanceError` for every non-empty keyword set. -/
theorem update_always_raises (c : TomSelectConfig) (k v : String)
    (rest : List (String × String)) :
    c.update ((k, v) :: rest) =
      .error ("FrozenInstanceError: cannot assign to field " ++ k) := rfl

/-- C9: merging any valid base with a default-constructed override
resets every field whose declared default is not `None` to that default
(the default, not being `None`, wins over the base's value); only the
fields whose declared default is `None` — the two optional booleans,
`max_items`, `max_options`, `create_filter` and the six plugin slots —
retain the base's value.  The unnamed fields of the result literal
below are exactly the declared defaults. -/
theorem merge_default_override_resets (base : TomSelectConfig)
    (h : base.validate = .ok ()) :
    merge_configs base (some {}) =
      .ok { close_after_select := base.close_after_select
            hide_placeholder := base.hide_placeholder
            max_items := base.max_items
            max_options := base.max_options
            create_filter := base.create_filter
            plugin_checkbox_options := base.plugin_checkbox_options
            plugin_clear_button := base.plugin_clear_button
            plugin_dropdown_header := base.plugin_dropdown_header
            plugin_dropdown_footer := base.plugin_dropdown_footer
            plugin_dropdown_input := base.plugin_dropdown_input
            plugin_remove_button := base.plugin_remove_button } := by
  have hbounds : belowOne base.max_items = false ∧ belowOne base.max_options = false := by
    unfold TomSelectConfig.validate at h
    split_ifs at h with h1 h2 h3 h4 h5 h6 h7
    exact ⟨by simpa using h5, by simpa using h6⟩
  show mkTomSelectConfig (combine base {}) = _
  have hcomb : combine base ({} : TomSelectConfig) =
      { close_after_select := base.close_after_select
        hide_placeholder := base.hide_placeholder
        max_items := base.max_items
        max_options := base.max_options
        create_filter := base.create_filter
        plugin_checkbox_options := base.plugin_checkbox_options
        plugin_clear_button := base.plugin_clear_button
        plugin_dropdown_header := base.plugin_dropdown_header
        plugin_dropdown_footer := base.plugin_dropdown_footer
        plugin_dropdown_input := base.plugin_dropdown_input
        plugin_remove_button := base.plugin_remove_button } := rfl
  rw [hcomb, mkTomSelectConfig_ok_iff]
  refine ⟨?_, rfl⟩
  unfold TomSelectConfig.validate
  simp [hbounds.1, hbounds.2]

/-- Base configuration exercising C9: non-default values everywhere
the defaults are not `None`, plus some `None`-default fields set. -/
def richBase : TomSelectConfig :=
  { url := "other", show_list := true, filter_by := ["a", "b"], load_throttle := 250,
    placeholder := none, max_items := some 7, plugin_clear_button := some {} }

/-- Witness for C9: merging `richBase` with a default-constructed
override keeps only `max_items` and the plugin slot; `url`,
`show_list`, `filter_by`, `load_throttle` and `placeholder` all revert
to the declared defaults. -/
theorem merge_default_override_resets_witness :
    merge_configs richBase (some {}) =
      .ok { max_items := some 7, plugin_clear_button := some {} } :=
  merge_default_override_resets richBase (by rfl)

/-- C10: `MIZSelect.optgroups` returns the empty list for every widget
state, name, selected value and attribute set — the select element is
rendered without any option entries. -/
theorem optgroups_always_empty (w : MIZSelect) (name : String) (value : List String)
    (attrs : Attrs) :
    w.optgroups name value attrs = [] := rfl

/-- C8: `build_attrs` always emits the `data-add-url` and
`data-changelist-url` keys; when the corresponding URL field is the
empty string the emitted value is the empty string — the key is never
omitted. -/
theorem build_attrs_url_keys (w : MIZSelect) (reverse : String → String)
    (base_attrs extra_attrs : Attrs) :
    (w.add_url = "" →
      w.build_attrs reverse base_attrs extra_attrs "data-add-url" = some (.str "")) ∧
    (w.changelist_url = "" →
      w.build_attrs reverse base_attrs extra_attrs "data-changelist-url" = some (.str "")) ∧
    (w.build_attrs reverse base_attrs extra_attrs "data-add-url").isSome = true ∧
    (w.build_attrs reverse base_attrs extra_attrs "data-changelist-url").isSome = true := by
  refine ⟨fun h => ?_, fun h => ?_, ?_, ?_⟩ <;>
    simp [MIZSelect.build_attrs, dictUpdate, dictSet, MIZSelect.get_add_url,
          MIZSelect.get_changelist_url, orEmpty, *]

/-- Witness for C8: a widget whose `add_url` is left at its default
empty string still gets a `data-add-url` attribute, with value `""`. -/
theorem build_attrs_url_keys_witness :
    ({ app_label := "demo", model_name := "person" } : MIZSelect).build_attrs
        id (fun _ => none) (fun _ => none) "data-add-url" = some (.str "") :=
  (build_attrs_url_keys { app_label := "demo", model_name := "person" }
    id (fun _ => none) (fun _ => none)).1 rfl

end DjangoTomselect
